import Mathlib

/-!
Verification of the helium/packet-forwarder-test RF conformance tester.

Shallow embedding of the code in `src/rf-tester/src/main.rs` (the sweep
driver, the per-endpoint event loop, packet construction and matching) and
`src/regions/src/lib.rs` (the region frequency plans).

Modelling conventions:
* `MacAddress` is a `Nat` (the 8-byte gateway id, compared only for equality).
* `f64` frequency values (MHz scale) are modelled as `ℚ`; the dispatched
  frequency `*channel as f64 / 1_000_000.0` becomes `(channel : ℚ) / 1000000`
  and the match tolerance `0.1` becomes `1/10`.
* Base64 payload encoding is modelled as the identity on the byte list: the
  encoding is injective, so `rxpk.get_data() == txpk.data` holds exactly when
  the underlying byte lists are equal.
* Time is modelled by naturals (seconds); `Instant::now()` is threaded
  explicitly.  Each inbound message carries its arrival instant; a
  `tokio::time::timeout(d, recv())` on a queue whose next message arrives at
  `t` succeeds iff `t ≤ now + d`, returning at instant `max now t`.  Dispatch
  itself is modelled as instantaneous (its 5 s acknowledgment timeout is
  abstracted into the per-step dispatch-success oracle `dispatchOk`).
-/

namespace PacketForwarderTest

/-- The `Role` enum of `rf-tester/src/main.rs` (lines 17-21): which gateway a
message came from. -/
inductive Role where
  | Tested
  | Control
deriving DecidableEq, Repr

/-- Gateway hardware address (`semtech_udp::MacAddress`), compared only for
equality. -/
abbrev MacAddress := Nat

/-- The fields of `push_data::RxPk` that `run_test` reads: payload bytes
(`get_data`), data-rate string (`get_datarate`), reported frequency in MHz
(`get_frequency`, an `f64` modelled as `ℚ`), and the signal metrics printed on
a pass (`get_rssi`, `get_snr`). -/
structure RxPk where
  data : List Nat
  datr : String
  freq : ℚ
  rssi : Int
  snr : ℚ

/-- The `pull_resp::TxPk` structure as filled in by `create_packet`
(main.rs lines 184-208).  Optional fields that `create_packet` sets to `None`
are omitted. -/
structure TxPk where
  imme : Bool
  tmst : Nat
  freq : ℚ
  rfch : Nat
  powe : Nat
  modu : String
  datr : String
  codr : String
  ipol : Bool
  size : Nat
  data : List Nat

/-- `type Message = (RxPk, MacAddress, Role)` (main.rs line 23): one uplink
observation as published on the mpsc channel, tagged with the mac of the
reporting gateway and the role of the endpoint that received it. -/
structure Message where
  rxpk : RxPk
  mac : MacAddress
  role : Role

/-- A message on the observation channel together with the instant at which
it arrives at the consumer side. -/
structure TimedMessage where
  arrival : Nat
  msg : Message

/-- `create_packet` (main.rs lines 184-208): a 52-byte zero payload, the
channel frequency converted from Hz to MHz, `LORA` modulation, `4/5` coding
rate, immediate transmission.  Base64 encoding of the payload is modelled as
the identity on the byte list. -/
def create_packet (channel : Nat) (datr : String) (power : Nat) : TxPk :=
  { imme := true
    tmst := 0
    freq := (channel : ℚ) / 1000000
    rfch := 0
    powe := power
    modu := "LORA"
    datr := datr
    codr := "4/5"
    ipol := false
    size := 52
    data := List.replicate 52 0 }

/-- The `Region` enum of `regions/src/lib.rs` (lines 6-22). -/
inductive Region where
  | US915
  | EU868
  | EU433
  | CN470
  | CN779
  | AU915
  | AS923_1
  | AS923_2
  | AS923_3
  | AS923_4
  | KR920
  | IN865
  | RU864
deriving DecidableEq, Repr, Fintype

/-- `Region::get_uplink_frequencies` (regions/src/lib.rs lines 24-42) with the
frequency tables of lines 44-158 inlined, in source order. -/
def Region.get_uplink_frequencies : Region → List Nat
  | .US915 =>
      [903900000, 904100000, 904300000, 904500000,
       904700000, 904900000, 905100000, 905300000]
  | .EU868 =>
      [868100000, 868300000, 868500000, 867100000, 867300000,
       867500000, 867700000, 867900000, 868300000]
  | .EU433 => [433175000, 433375000, 433575000]
  | .CN470 =>
      [486300000, 486500000, 486700000, 486900000,
       487100000, 487300000, 487500000, 487700000]
  | .CN779 => [779500000, 779700000, 779900000]
  | .AU915 =>
      [916800000, 917000000, 917200000, 917400000, 917500000,
       917600000, 917800000, 918000000, 918200000]
  | .AS923_1 =>
      [923200000, 923400000, 923600000, 923800000,
       924000000, 924200000, 924400000, 924600000]
  | .AS923_2 =>
      [921400000, 921600000, 921800000, 922000000,
       922200000, 922400000, 922600000, 922800000]
  | .AS923_3 =>
      [916600000, 916800000, 917000000, 917200000,
       917400000, 917600000, 917800000, 918000000]
  | .AS923_4 =>
      [917300000, 917500000, 917700000, 917900000,
       918100000, 918300000, 918500000, 918700000]
  | .KR920 =>
      [922100000, 922300000, 922500000, 922700000,
       922900000, 923100000, 923300000]
  | .IN865 => [865062500, 865402500, 865985000]
  | .RU864 =>
      [864100000, 864300000, 864500000, 864700000,
       864900000, 868900000, 869100000]

/-- The `server_runtime::Event` variants handled by the event loop spawned in
`start_server` (main.rs lines 45-77).  Payloads not inspected by the loop are
modelled by plain values. -/
inductive Event where
  | unableToParseUdpFrame (buf : List Nat)
  | newClient (mac : MacAddress) (addr : Nat)
  | updateClient (mac : MacAddress) (addr : Nat)
  | packetReceived (rxpk : RxPk) (mac : MacAddress)
  | noClientWithMac (mac : MacAddress)
  | rawPacket (pkt : List Nat)

/-- State of one endpoint's event loop: `pending` is whether the oneshot
sender is still held (`test_tx : Option<oneshot::Sender<MacAddress>>`,
main.rs line 43, `Some` at start), `resolved` is the value delivered to the
oneshot receiver (the registration gate), and `outbox` records the messages
pushed onto the observation channel, in order. -/
structure ServerState where
  pending : Bool
  resolved : Option MacAddress
  outbox : List Message

/-- State before any event is processed: the oneshot sender is held, nothing
has been sent. -/
def initialServerState : ServerState :=
  { pending := true, resolved := none, outbox := [] }

/-- One iteration of the event loop in `start_server` (main.rs lines 46-76):
`NewClient` fires the oneshot via `test_tx.take()` only when the sender is
still held; `PacketReceived` forwards `(rxpk, mac, role)` to the observation
channel; `UpdateClient`, parse failures, unknown-mac rejections and raw
packets only log. -/
def handleEvent (role : Role) (s : ServerState) : Event → ServerState
  | .newClient mac _addr =>
      if s.pending then { s with pending := false, resolved := some mac } else s
  | .packetReceived rxpk mac =>
      { s with outbox := s.outbox ++ [⟨rxpk, mac, role⟩] }
  | _ => s

/-- The event loop run over a whole sequence of received events. -/
def runEvents (role : Role) (events : List Event) : ServerState :=
  events.foldl (handleEvent role) initialServerState

/-- The mac announced by a `NewClient` event, if any. -/
def newClientMac : Event → Option MacAddress
  | .newClient mac _addr => some mac
  | _ => none

/-- The wait window of one channel-test step: `wait_for = Duration::from_secs(10)`
(main.rs line 159), in the model's time unit (seconds). -/
def waitFor : Nat := 10

/-- The two ways a run dies: the `panic!` on a failed downlink dispatch
(main.rs lines 154-156) and the `Elapsed` error that the `?` on
`timeout(wait_for, receiver.recv()).await` propagates out of `run_test`
(main.rs lines 162-163).  Either way `main` ends with a non-zero process
exit. -/
inductive RunError where
  | dispatchPanic
  | recvTimeout
deriving DecidableEq, Repr

/-- The match condition of `run_test` (main.rs lines 166-170): reporting
gateway mac equals the receiving (control-side) device's mac, role equals the
receiving direction, payload bytes equal the dispatched payload, data-rate
strings equal, and the reported frequency is within 0.1 (MHz scale) of the
dispatched frequency. -/
def packetMatches (control_mac : MacAddress) (receiver_role : Role)
    (txpk : TxPk) (m : Message) : Prop :=
  m.mac = control_mac ∧ m.role = receiver_role ∧ m.rxpk.data = txpk.data
    ∧ m.rxpk.datr = txpk.datr ∧ |m.rxpk.freq - txpk.freq| < 1/10

instance (control_mac : MacAddress) (receiver_role : Role) (txpk : TxPk)
    (m : Message) : Decidable (packetMatches control_mac receiver_role txpk m) := by
  unfold packetMatches; infer_instance

/-- The wait loop of one channel-test step (main.rs lines 158-179).  `start`
is the instant recorded by `Instant::now()` after dispatch returns, `now` the
current instant, `pending` the observation-channel content plus all future
messages in arrival order.  While `now - start < wait_for` and the step has
not passed, the loop pulls the next message with a fresh full-window timeout:
with no message at all the timeout elapses into the propagated
`recvTimeout` error, as it does when the next message arrives later than
`now + wait_for`; otherwise the message is received at `max now arrival`,
and either matches (the step passes, the rest of the queue is left for the
next step) or is dropped and the loop repeats.  When the window check fails
the step ends with `passed = false`.  Returns `(passed, now, remaining queue)`. -/
def stepLoop (control_mac : MacAddress) (receiver_role : Role) (txpk : TxPk)
    (start : Nat) :
    Nat → List TimedMessage → Except RunError (Bool × Nat × List TimedMessage)
  | now, [] =>
      if now - start < waitFor then .error .recvTimeout else .ok (false, now, [])
  | now, tm :: rest =>
      if now - start < waitFor then
        if tm.arrival ≤ now + waitFor then
          if packetMatches control_mac receiver_role txpk tm.msg then
            .ok (true, max now tm.arrival, rest)
          else
            stepLoop control_mac receiver_role txpk start (max now tm.arrival) rest
        else .error .recvTimeout
      else .ok (false, now, tm :: rest)

/-- The channel iteration of `run_test` (main.rs lines 144-180), carrying the
enumeration index.  Per channel: build the packet with `create_packet`,
dispatch it (the oracle `dispatchOk index` tells whether the 5 s dispatch
acknowledgment arrived; on failure the code panics), then run the wait loop.
Returns the per-channel `(channel, passed)` results in plan order together
with the final instant and the unconsumed queue. -/
def runTestResult (receiver_role : Role) (datr : String) (power : Nat)
    (control_mac : MacAddress) (dispatchOk : Nat → Bool) :
    Nat → List Nat → Nat → List TimedMessage →
      Except RunError (List (Nat × Bool) × Nat × List TimedMessage)
  | _, [], now, pending => .ok ([], now, pending)
  | index, channel :: rest, now, pending =>
      if dispatchOk index then
        match stepLoop control_mac receiver_role (create_packet channel datr power)
            now now pending with
        | .error e => .error e
        | .ok (passed, now', pending') =>
            match runTestResult receiver_role datr power control_mac dispatchOk
                (index + 1) rest now' pending' with
            | .error e => .error e
            | .ok (results, nowEnd, pendingEnd) =>
                .ok ((channel, passed) :: results, nowEnd, pendingEnd)
      else .error .dispatchPanic

/-- The indices at which `run_test` actually issues a downlink dispatch
(enters the body at main.rs line 153), following exactly the control flow of
`runTestResult`: iteration stops at the first dispatch panic or propagated
receive timeout. -/
def runTestTrace (receiver_role : Role) (datr : String) (power : Nat)
    (control_mac : MacAddress) (dispatchOk : Nat → Bool) :
    Nat → List Nat → Nat → List TimedMessage → List Nat
  | _, [], _, _ => []
  | index, channel :: rest, now, pending =>
      if dispatchOk index then
        match stepLoop control_mac receiver_role (create_packet channel datr power)
            now now pending with
        | .error _ => [index]
        | .ok (_, now', pending') =>
            index :: runTestTrace receiver_role datr power control_mac dispatchOk
              (index + 1) rest now' pending'
      else [index]

/-- `main` after both registration gates have resolved (main.rs lines
109-130): the sweep with the test gateway transmitting (receiver role
`Control`, observations matched against `control_mac`), then, only if the
first succeeded, the sweep with the control gateway transmitting (receiver
role `Tested`, observations matched against `test_mac`), over the same region
plan and the same observation queue.  `test_mac`/`control_mac` are the
identities the two gates resolved with; `dispatchOk1`/`dispatchOk2` are the
per-direction dispatch oracles.  No comparison of the two identities is
performed anywhere. -/
def mainRunResult (datr : String) (power : Nat) (region : Region)
    (test_mac control_mac : MacAddress) (dispatchOk1 dispatchOk2 : Nat → Bool)
    (startTime : Nat) (pending : List TimedMessage) :
    Except RunError (List (Nat × Bool)) :=
  match runTestResult Role.Control datr power control_mac dispatchOk1
      0 region.get_uplink_frequencies startTime pending with
  | .error e => .error e
  | .ok (results1, now1, pending1) =>
      match runTestResult Role.Tested datr power test_mac dispatchOk2
          0 region.get_uplink_frequencies now1 pending1 with
      | .error e => .error e
      | .ok (results2, _, _) => .ok (results1 ++ results2)

/-- The dispatch indices attempted by each of the two sweep directions of
`main`: the second direction runs only when the first returned without
error. -/
def mainRunTraces (datr : String) (power : Nat) (region : Region)
    (test_mac control_mac : MacAddress) (dispatchOk1 dispatchOk2 : Nat → Bool)
    (startTime : Nat) (pending : List TimedMessage) : List Nat × List Nat :=
  match runTestResult Role.Control datr power control_mac dispatchOk1
      0 region.get_uplink_frequencies startTime pending with
  | .error _ =>
      (runTestTrace Role.Control datr power control_mac dispatchOk1
        0 region.get_uplink_frequencies startTime pending, [])
  | .ok (_, now1, pending1) =>
      (runTestTrace Role.Control datr power control_mac dispatchOk1
        0 region.get_uplink_frequencies startTime pending,
       runTestTrace Role.Tested datr power test_mac dispatchOk2
        0 region.get_uplink_frequencies now1 pending1)

/-- Exit status of the process: `main` returns `Result`, so an error (and
likewise the dispatch `panic!`) produces a non-zero exit code, a completed
run exits zero regardless of per-channel pass/fail. -/
def exitCodeNonZero : Except RunError (List (Nat × Bool)) → Bool
  | .ok _ => false
  | .error _ => true

/-- The instant at which the step's `k`-th pull begins: the loop entered at
instant `now` has, after receiving the first `k` messages of `pending`,
advanced its clock to the maximum of `now` and their arrival instants. -/
def nowAfter (now : Nat) (pending : List TimedMessage) (k : Nat) : Nat :=
  (pending.take k).foldl (fun n tm => max n tm.arrival) now

/-- A message that matches no expectation: empty payload, data-rate `X`,
frequency 0, reported by gateway mac 9, arriving at instant `t`.  Used to
keep a step's wait loop fed until its window elapses. -/
def junkMsg (t : Nat) : TimedMessage :=
  ⟨t, ⟨⟨[], "X", 0, 0, 0⟩, 9, Role.Control⟩⟩

/-- A message reproducing the dispatched fingerprint for `channel` at
data-rate `SF12BW125`: the 52-byte zero payload, the exact dispatched
frequency, RSSI -80 and SNR 5, reported by gateway `mac` with `role`,
arriving at instant `t`. -/
def goodMsg (mac : MacAddress) (role : Role) (channel : Nat) (t : Nat) :
    TimedMessage :=
  ⟨t, ⟨⟨List.replicate 52 0, "SF12BW125", (channel : ℚ) / 1000000, -80, 5⟩,
    mac, role⟩⟩

/-- The match condition exactly as claim C1 words it: role matches the
receiving direction, payload bytes are byte-identical, data-rate strings are
equal, and the reported frequency is within 0.1 (MHz scale) of the dispatched
one — with no condition on the reporting gateway's identity.  This definition
follows the claim's words, for comparison with `packetMatches`, which follows
the source. -/
def claimMatches (receiver_role : Role) (txpk : TxPk) (m : Message) : Prop :=
  m.role = receiver_role ∧ m.rxpk.data = txpk.data ∧ m.rxpk.datr = txpk.datr
    ∧ |m.rxpk.freq - txpk.freq| < 1/10

/-- Modelled from the spec: the observation channel itself is
`tokio::sync::mpsc::channel(120)` (main.rs lines 85-86), library code outside
src/; only its capacity and the call sites (`sender.send(..).await` in
`start_server`, `receiver.recv()` in `run_test`) are in the repository.  Its
queue discipline is modelled from the spec's Observation Channel section:
a send on a full queue blocks the producer (has no effect yet, the message
stays with the producer), otherwise it appends; a receive on an empty queue
blocks, otherwise it takes the front. -/
inductive ChanOp where
  | send (m : Message)
  | recv

/-- Modelled from the spec: state of the observation channel — the queued
messages, the messages the consumer has received, and the messages whose send
completed, each in order. -/
structure ChanState where
  queue : List Message
  delivered : List Message
  accepted : List Message

/-- The channel capacity: `mpsc::channel(120)` (main.rs line 86). -/
def chanCapacity : Nat := 120

/-- Modelled from the spec: one channel operation.  A send with the queue at
capacity leaves the state unchanged — the producer is blocked and retries, the
message is not dropped; otherwise the message is appended and the send
completes.  A receive takes the front message if any. -/
def chanStep (s : ChanState) : ChanOp → ChanState
  | .send m =>
      if s.queue.length < chanCapacity then
        { queue := s.queue ++ [m], delivered := s.delivered,
          accepted := s.accepted ++ [m] }
      else s
  | .recv =>
      match s.queue with
      | [] => s
      | m :: rest =>
          { queue := rest, delivered := s.delivered ++ [m],
            accepted := s.accepted }

/-- Modelled from the spec: the channel run from empty over a sequence of
producer/consumer operations. -/
def chanRun (ops : List ChanOp) : ChanState :=
  ops.foldl chanStep { queue := [], delivered := [], accepted := [] }

/-- C9: the EU868 frequency plan (regions/src/lib.rs lines 55-65) lists
868.3 MHz twice, at indices 1 and 8, so it is not duplicate-free; the claim's
remaining parts hold for every region (the plan is a fixed, non-empty list of
positive integers in Hz), and every plan other than EU868 is duplicate-free.
The file's own doc comment says the tables are derived from the helium/miner
`sys.config`, whose ninth EU868 uplink channel is 868.8 MHz, so the repeated
`868_300_000` is an evident slip for `868_800_000`. -/
theorem eu868_plan_contains_duplicate :
    Region.EU868.get_uplink_frequencies.get? 1 = some 868300000
    ∧ Region.EU868.get_uplink_frequencies.get? 8 = some 868300000
    ∧ ¬ Region.EU868.get_uplink_frequencies.Nodup
    ∧ (∀ r : Region, r.get_uplink_frequencies ≠ []
        ∧ r.get_uplink_frequencies.all (fun f => decide (0 < f)) = true)
    ∧ (∀ r : Region, r.get_uplink_frequencies.Nodup ∨ r = Region.EU868) := by
  refine ⟨rfl, rfl, by decide, by decide, by decide⟩

theorem handleEvent_invariant (role : Role) (s : ServerState) (e : Event)
    (h : s.pending = s.resolved.isNone) :
    (handleEvent role s e).pending = (handleEvent role s e).resolved.isNone := by
  cases e <;> simp [handleEvent, h]
  split <;> simp_all

theorem foldl_handleEvent_resolved (role : Role) (events : List Event) :
    ∀ s : ServerState, s.pending = s.resolved.isNone →
      (events.foldl (handleEvent role) s).resolved
        = s.resolved.or (events.filterMap newClientMac).head? := by
  induction events with
  | nil => intro s _; simp
  | cons e rest ih =>
      intro s hs
      have hinv := handleEvent_invariant role s e hs
      rw [List.foldl_cons, ih _ hinv]
      cases e with
      | newClient mac addr =>
          by_cases hp : s.pending
          · have : s.resolved = none := by
              rw [hp] at hs; exact Option.isNone_iff_eq_none.mp hs.symm
            simp [handleEvent, hp, this, newClientMac]
          · have : ∃ m, s.resolved = some m := by
              cases hr : s.resolved with
              | none => rw [hr] at hs; simp at hs; exact absurd hs hp
              | some m => exact ⟨m, rfl⟩
            obtain ⟨m, hm⟩ := this
            simp [handleEvent, hp, hm, newClientMac]
      | unableToParseUdpFrame buf => simp [handleEvent, newClientMac]
      | updateClient mac addr => simp [handleEvent, newClientMac]
      | packetReceived rxpk mac => simp [handleEvent, newClientMac]
      | noClientWithMac mac => simp [handleEvent, newClientMac]
      | rawPacket pkt => simp [handleEvent, newClientMac]

/-- C6: for any endpoint role and any event sequence, the registration gate
resolves with exactly the mac of the first `NewClient` event (and stays
unresolved while none has arrived); and once resolved to some identity, no
further events — later registration frames or address updates included — ever
change it. -/
theorem registration_gate_single_fire (role : Role) (events : List Event) :
    (runEvents role events).resolved = (events.filterMap newClientMac).head?
    ∧ ∀ (more : List Event) (m : MacAddress),
        (runEvents role events).resolved = some m →
        (runEvents role (events ++ more)).resolved = some m := by
  have base : ∀ evs : List Event,
      (runEvents role evs).resolved = (evs.filterMap newClientMac).head? := by
    intro evs
    have := foldl_handleEvent_resolved role evs initialServerState rfl
    simpa [runEvents, initialServerState] using this
  refine ⟨base events, ?_⟩
  intro more m hm
  have happ := base (events ++ more)
  rw [List.filterMap_append] at happ
  rw [base events] at hm
  rw [happ, List.head?_append, hm]
  rfl

/-- Witness for `registration_gate_single_fire`: with two registration events
for macs 5 then 6 followed by an address update, the gate holds mac 5, and it
still holds 5 after further registrations arrive. -/
theorem registration_gate_single_fire_witness :
    (runEvents Role.Tested
        [Event.newClient 5 0, Event.newClient 6 1, Event.updateClient 5 2]).resolved
      = some 5
    ∧ (runEvents Role.Tested
        ([Event.newClient 5 0, Event.newClient 6 1, Event.updateClient 5 2]
          ++ [Event.newClient 7 3])).resolved = some 5 := by
  have h := registration_gate_single_fire Role.Tested
    [Event.newClient 5 0, Event.newClient 6 1, Event.updateClient 5 2]
  have h1 : (runEvents Role.Tested
      [Event.newClient 5 0, Event.newClient 6 1, Event.updateClient 5 2]).resolved
      = some 5 := by
    rw [h.1]; rfl
  exact ⟨h1, h.2 [Event.newClient 7 3] 5 h1⟩

theorem nowAfter_zero (now : Nat) (pending : List TimedMessage) :
    nowAfter now pending 0 = now := rfl

theorem nowAfter_cons_succ (now : Nat) (tm : TimedMessage)
    (rest : List TimedMessage) (k : Nat) :
    nowAfter now (tm :: rest) (k + 1) = nowAfter (max now tm.arrival) rest k := by
  simp [nowAfter, List.take_succ_cons]

theorem stepLoop_pass_iff_general (control_mac : MacAddress)
    (receiver_role : Role) (txpk : TxPk) (start : Nat)
    (pending : List TimedMessage) :
    ∀ now : Nat,
      (∃ n' rest, stepLoop control_mac receiver_role txpk start now pending
          = .ok (true, n', rest))
      ↔ ∃ i, ∃ h : i < pending.length,
          packetMatches control_mac receiver_role txpk (pending.get ⟨i, h⟩).msg
          ∧ (∀ j (hj : j < pending.length), j < i →
              ¬ packetMatches control_mac receiver_role txpk (pending.get ⟨j, hj⟩).msg)
          ∧ (∀ j ≤ i, nowAfter now pending j - start < waitFor
              ∧ ∀ hj : j < pending.length,
                  (pending.get ⟨j, hj⟩).arrival ≤ nowAfter now pending j + waitFor) := by
  induction pending with
  | nil =>
      intro now
      constructor
      · rintro ⟨n', rest, h⟩
        rw [stepLoop] at h
        split at h <;> simp_all
      · rintro ⟨i, hi, -⟩
        exact absurd hi (by simp)
  | cons tm rest ih =>
      intro now
      by_cases hc : now - start < waitFor
      · by_cases ha : tm.arrival ≤ now + waitFor
        · by_cases hm : packetMatches control_mac receiver_role txpk tm.msg
          · constructor
            · intro _
              refine ⟨0, by simp, by simpa using hm, ?_, ?_⟩
              · intro j hj hj0
                exact absurd hj0 (Nat.not_lt_zero j)
              · intro j hj0
                have hj' : j = 0 := Nat.le_zero.mp hj0
                subst hj'
                exact ⟨by simpa [nowAfter_zero] using hc,
                  fun hj => by simpa [nowAfter_zero] using ha⟩
            · intro _
              exact ⟨max now tm.arrival, rest, by rw [stepLoop]; simp [hc, ha, hm]⟩
          · have hstep : stepLoop control_mac receiver_role txpk start now (tm :: rest)
                = stepLoop control_mac receiver_role txpk start
                    (max now tm.arrival) rest := by
              rw [stepLoop]; simp [hc, ha, hm]
            rw [hstep, ih (max now tm.arrival)]
            constructor
            · rintro ⟨k, hk, hmk, hfirst, helig⟩
              refine ⟨k + 1, Nat.succ_lt_succ hk, ?_, ?_, ?_⟩
              · simpa [List.get_cons_succ] using hmk
              · intro j hj hjlt
                cases j with
                | zero => simpa [List.get_cons_zero] using hm
                | succ j' =>
                    have hj' : j' < rest.length := Nat.lt_of_succ_lt_succ hj
                    have := hfirst j' hj' (Nat.lt_of_succ_lt_succ hjlt)
                    simpa [List.get_cons_succ] using this
              · intro j hj
                cases j with
                | zero =>
                    exact ⟨by simpa [nowAfter_zero] using hc,
                      fun hjl => by simpa [nowAfter_zero, List.get_cons_zero] using ha⟩
                | succ j' =>
                    have hj' : j' ≤ k := Nat.le_of_succ_le_succ hj
                    have := helig j' hj'
                    refine ⟨by simpa [nowAfter_cons_succ] using this.1, ?_⟩
                    intro hjl
                    have hjl' : j' < rest.length := Nat.lt_of_succ_lt_succ hjl
                    have h2 := this.2 hjl'
                    simpa [nowAfter_cons_succ, List.get_cons_succ] using h2
            · rintro ⟨i, hi, hmi, hfirst, helig⟩
              cases i with
              | zero => exact absurd (by simpa [List.get_cons_zero] using hmi) hm
              | succ k =>
                  have hk : k < rest.length := Nat.lt_of_succ_lt_succ hi
                  refine ⟨k, hk, ?_, ?_, ?_⟩
                  · simpa [List.get_cons_succ] using hmi
                  · intro j hj hjlt
                    have := hfirst (j + 1) (Nat.succ_lt_succ hj)
                      (Nat.succ_lt_succ hjlt)
                    simpa [List.get_cons_succ] using this
                  · intro j hj
                    have := helig (j + 1) (Nat.succ_le_succ hj)
                    refine ⟨by simpa [nowAfter_cons_succ] using this.1, ?_⟩
                    intro hjl
                    have h2 := this.2 (Nat.succ_lt_succ hjl)
                    simpa [nowAfter_cons_succ, List.get_cons_succ] using h2
        · constructor
          · rintro ⟨n', rest', h⟩
            rw [stepLoop] at h
            simp [hc, ha] at h
          · rintro ⟨i, hi, -, -, helig⟩
            have := (helig 0 (Nat.zero_le i)).2 (by simp)
            rw [nowAfter_zero] at this
            exact absurd (by simpa [List.get_cons_zero] using this) ha
      · constructor
        · rintro ⟨n', rest', h⟩
          rw [stepLoop] at h
          simp [hc] at h
        · rintro ⟨i, hi, -, -, helig⟩
          have := (helig 0 (Nat.zero_le i)).1
          rw [nowAfter_zero] at this
          exact absurd this hc

/-- C1, counterexample: an observation satisfying every condition the claim
names (role, byte-identical payload, identical data-rate, frequency exactly
the dispatched one) arrives at instant 1, well inside the 10 s window that
opened at instant 0 — yet the step records FAIL, because the observation is
reported by gateway mac 99 while the receiving device's mac is 2, a condition
`run_test` checks (main.rs line 166) and the claim omits. -/
theorem channel_step_identity_cex :
    claimMatches Role.Control (create_packet 916800000 "SF12BW125" 12)
      (goodMsg 99 Role.Control 916800000 1).msg
    ∧ (goodMsg 99 Role.Control 916800000 1).arrival ≤ 0 + waitFor
    ∧ stepLoop 2 Role.Control (create_packet 916800000 "SF12BW125" 12) 0 0
        [goodMsg 99 Role.Control 916800000 1, junkMsg 10]
      = .ok (false, 10, []) := by
  refine ⟨?_, by norm_num [goodMsg, waitFor], ?_⟩
  · norm_num [claimMatches, goodMsg, create_packet]
  · norm_num [stepLoop, packetMatches, create_packet, waitFor, goodMsg, junkMsg,
      abs_lt]

/-- C1, amended: a channel-test step records PASS exactly when some pulled
observation matches the receiving device's identity in addition to role,
payload, data-rate and frequency-within-0.1; "pulled" means every earlier
observation was pulled without matching, each pull began while the 10 s
window (opened at dispatch return, instant `start`) had not elapsed, and the
observation arrived within a full 10 s of its pull's beginning.  (A step with
no matching pulled observation records FAIL only if pulls kept succeeding
until the window elapsed; an empty pull is the fatal receive timeout settled
with claim C4.) -/
theorem channel_step_pass_iff_matched_pull (control_mac : MacAddress)
    (receiver_role : Role) (txpk : TxPk) (start : Nat)
    (pending : List TimedMessage) :
    (∃ n' rest, stepLoop control_mac receiver_role txpk start start pending
        = .ok (true, n', rest))
    ↔ ∃ i, ∃ h : i < pending.length,
        packetMatches control_mac receiver_role txpk (pending.get ⟨i, h⟩).msg
        ∧ (∀ j (hj : j < pending.length), j < i →
            ¬ packetMatches control_mac receiver_role txpk (pending.get ⟨j, hj⟩).msg)
        ∧ (∀ j ≤ i, nowAfter start pending j - start < waitFor
            ∧ ∀ hj : j < pending.length,
                (pending.get ⟨j, hj⟩).arrival ≤ nowAfter start pending j + waitFor) :=
  stepLoop_pass_iff_general control_mac receiver_role txpk start pending start

/-- C10: a channel-test step whose wait loop ends without error never records
PASS when every queued or arriving observation is reported by a gateway other
than the receiving device: the identity conjunct of the match condition
(main.rs line 166) makes a PASS with a foreign identity impossible. -/
theorem pass_requires_receiver_identity (control_mac : MacAddress)
    (receiver_role : Role) (txpk : TxPk) (start : Nat)
    (pending : List TimedMessage) (b : Bool) (n' : Nat)
    (rest : List TimedMessage)
    (hmac : ∀ tm ∈ pending, tm.msg.mac ≠ control_mac)
    (hrun : stepLoop control_mac receiver_role txpk start start pending
      = .ok (b, n', rest)) :
    b = false := by
  cases b with
  | false => rfl
  | true =>
      exfalso
      have hpass : ∃ n'' rest'',
          stepLoop control_mac receiver_role txpk start start pending
            = .ok (true, n'', rest'') := ⟨n', rest, hrun⟩
      rw [stepLoop_pass_iff_general] at hpass
      obtain ⟨i, hi, hmi, -, -⟩ := hpass
      exact hmac (pending.get ⟨i, hi⟩) (pending.get_mem i hi) hmi.1

/-- Witness for `pass_requires_receiver_identity`: with the receiving device
at mac 2 and a queue holding an otherwise perfectly matching observation from
mac 99 followed by noise from mac 9, the step completes with FAIL. -/
theorem pass_requires_receiver_identity_witness :
    (∀ tm ∈ [goodMsg 99 Role.Control 916800000 1, junkMsg 10],
        tm.msg.mac ≠ 2)
    ∧ stepLoop 2 Role.Control (create_packet 916800000 "SF12BW125" 12) 0 0
        [goodMsg 99 Role.Control 916800000 1, junkMsg 10]
      = .ok (false, 10, [])
    ∧ false = false := by
  have hmac : ∀ tm ∈ [goodMsg 99 Role.Control 916800000 1, junkMsg 10],
      tm.msg.mac ≠ 2 := by
    simp [goodMsg, junkMsg]
  have heval : stepLoop 2 Role.Control (create_packet 916800000 "SF12BW125" 12)
      0 0 [goodMsg 99 Role.Control 916800000 1, junkMsg 10]
      = .ok (false, 10, []) := by
    norm_num [stepLoop, packetMatches, create_packet, waitFor, goodMsg, junkMsg,
      abs_lt]
  exact ⟨hmac, heval,
    pass_requires_receiver_identity 2 Role.Control
      (create_packet 916800000 "SF12BW125" 12) 0
      [goodMsg 99 Role.Control 916800000 1, junkMsg 10] false 10 [] hmac heval⟩

theorem runTestResult_ok_channels (receiver_role : Role) (datr : String)
    (power : Nat) (control_mac : MacAddress) (dispatchOk : Nat → Bool)
    (channels : List Nat) :
    ∀ (index now : Nat) (pending : List TimedMessage)
      (results : List (Nat × Bool)) (nowEnd : Nat)
      (pendingEnd : List TimedMessage),
      runTestResult receiver_role datr power control_mac dispatchOk
          index channels now pending = .ok (results, nowEnd, pendingEnd) →
      results.map Prod.fst = channels := by
  induction channels with
  | nil =>
      intro index now pending results nowEnd pendingEnd h
      rw [runTestResult] at h
      simp at h
      simp [h.1]
  | cons channel rest ih =>
      intro index now pending results nowEnd pendingEnd h
      rw [runTestResult] at h
      split at h
      · split at h
        · simp at h
        · split at h
          · simp at h
          · rename_i hd xsl passed now' pending' hsl xrec results' nowEnd' pendingEnd' hrec
            simp only [Except.ok.injEq, Prod.mk.injEq] at h
            have := ih (index + 1) now' pending' results' nowEnd' pendingEnd' hrec
            rw [← h.1, List.map_cons, this]
      · simp at h

/-- C2: whenever a full run completes without error, it is the two sweeps in
sequence — device-under-test transmitting, then control device transmitting —
and yields exactly `2 * len(F)` channel results for the region's plan `F`,
one per channel per direction: the channels of the result list are precisely
the plan followed by the plan again, in plan order. -/
theorem full_run_two_results_per_channel (datr : String) (power : Nat)
    (region : Region) (test_mac control_mac : MacAddress)
    (dispatchOk1 dispatchOk2 : Nat → Bool) (startTime : Nat)
    (pending : List TimedMessage) (results : List (Nat × Bool))
    (h : mainRunResult datr power region test_mac control_mac
      dispatchOk1 dispatchOk2 startTime pending = .ok results) :
    results.length = 2 * region.get_uplink_frequencies.length
    ∧ results.map Prod.fst
        = region.get_uplink_frequencies ++ region.get_uplink_frequencies := by
  rw [mainRunResult] at h
  split at h
  · simp at h
  · split at h
    · simp at h
    · rename_i x1 results1 now1 pending1 h1 x2 results2 nowEnd pendingEnd h2
      simp only [Except.ok.injEq] at h
      have hc1 := runTestResult_ok_channels Role.Control datr power
        control_mac dispatchOk1 region.get_uplink_frequencies
        0 startTime pending results1 now1 pending1 h1
      have hc2 := runTestResult_ok_channels Role.Tested datr power
        test_mac dispatchOk2 region.get_uplink_frequencies
        0 now1 pending1 results2 nowEnd pendingEnd h2
      have hmap : results.map Prod.fst
          = region.get_uplink_frequencies ++ region.get_uplink_frequencies := by
        rw [← h, List.map_append, hc1, hc2]
      refine ⟨?_, hmap⟩
      have hlen : (results.map Prod.fst).length
          = region.get_uplink_frequencies.length
            + region.get_uplink_frequencies.length := by
        rw [hmap, List.length_append]
      rw [List.length_map] at hlen
      omega

/-- Witness for `full_run_two_results_per_channel`: over the three-channel
EU433 plan, with every dispatch acknowledged and six non-matching messages
pacing out each step's window, the run completes with six FAIL results — two
per channel, in plan order. -/
theorem full_run_two_results_per_channel_witness :
    mainRunResult "SF12BW125" 12 Region.EU433 1 2 (fun _ => true) (fun _ => true)
        0 [junkMsg 10, junkMsg 20, junkMsg 30, junkMsg 40, junkMsg 50, junkMsg 60]
      = .ok [(433175000, false), (433375000, false), (433575000, false),
             (433175000, false), (433375000, false), (433575000, false)]
    ∧ ([(433175000, false), (433375000, false), (433575000, false),
        (433175000, false), (433375000, false),
        ((433575000 : Nat), false)] : List (Nat × Bool)).length
        = 2 * Region.EU433.get_uplink_frequencies.length := by
  have heval : mainRunResult "SF12BW125" 12 Region.EU433 1 2
      (fun _ => true) (fun _ => true) 0
      [junkMsg 10, junkMsg 20, junkMsg 30, junkMsg 40, junkMsg 50, junkMsg 60]
      = .ok [(433175000, false), (433375000, false), (433575000, false),
             (433175000, false), (433375000, false), (433575000, false)] := by
    norm_num [mainRunResult, runTestResult, stepLoop, packetMatches,
      create_packet, waitFor, junkMsg, Region.get_uplink_frequencies, abs_lt]
  exact ⟨heval,
    (full_run_two_results_per_channel "SF12BW125" 12 Region.EU433 1 2
      (fun _ => true) (fun _ => true) 0
      [junkMsg 10, junkMsg 20, junkMsg 30, junkMsg 40, junkMsg 50, junkMsg 60]
      _ heval).1⟩

/-- C4, counterexample: with dispatch succeeding and no observation at all
arriving, the claim says the first channel step records FAIL and the driver
advances through the whole plan; instead the `?` on
`timeout(wait_for, receiver.recv()).await` (main.rs lines 162-163) propagates
the timeout out of `run_test`, aborting the run on the first channel with a
non-zero exit. -/
theorem recv_timeout_abort_cex :
    mainRunResult "SF12BW125" 12 Region.AU915 1 2 (fun _ => true) (fun _ => true)
        0 []
      = .error .recvTimeout
    ∧ exitCodeNonZero (mainRunResult "SF12BW125" 12 Region.AU915 1 2
        (fun _ => true) (fun _ => true) 0 []) = true := by
  constructor <;>
    norm_num [mainRunResult, runTestResult, stepLoop, waitFor,
      Region.get_uplink_frequencies, exitCodeNonZero]

/-- C4, amended: when the receive call itself yields no message within its
window — the queue is empty, or the next message arrives later than a full
window after the pull begins — the step does not record FAIL: the timeout
error propagates, `run_test` aborts at that channel, and the error surfaces
as the run's result (non-zero exit). -/
theorem recv_timeout_is_fatal :
    (∀ (control_mac : MacAddress) (receiver_role : Role) (txpk : TxPk)
        (start now : Nat), now - start < waitFor →
      stepLoop control_mac receiver_role txpk start now [] = .error .recvTimeout)
    ∧ (∀ (control_mac : MacAddress) (receiver_role : Role) (txpk : TxPk)
        (start now : Nat) (tm : TimedMessage) (rest : List TimedMessage),
        now - start < waitFor → now + waitFor < tm.arrival →
        stepLoop control_mac receiver_role txpk start now (tm :: rest)
          = .error .recvTimeout)
    ∧ (∀ (receiver_role : Role) (datr : String) (power : Nat)
        (control_mac : MacAddress) (dispatchOk : Nat → Bool)
        (index channel : Nat) (rest : List Nat) (now : Nat)
        (pending : List TimedMessage) (e : RunError),
        dispatchOk index = true →
        stepLoop control_mac receiver_role (create_packet channel datr power)
            now now pending = .error e →
        runTestResult receiver_role datr power control_mac dispatchOk index
            (channel :: rest) now pending = .error e) := by
  refine ⟨?_, ?_, ?_⟩
  · intro control_mac receiver_role txpk start now h
    rw [stepLoop]
    simp [h]
  · intro control_mac receiver_role txpk start now tm rest h1 h2
    rw [stepLoop]
    simp [h1, Nat.not_le.mpr h2]
  · intro receiver_role datr power control_mac dispatchOk index channel rest
      now pending e hd hsl
    rw [runTestResult]
    simp [hd, hsl]

/-- Witness for `recv_timeout_is_fatal`: at instant 0, a step whose queue is
empty errors out, a step whose only message arrives at instant 11 (beyond the
window of the first pull) errors out, and the error propagates out of the
channel iteration. -/
theorem recv_timeout_is_fatal_witness :
    ((0 : Nat) - 0 < waitFor)
    ∧ stepLoop 2 Role.Control (create_packet 916800000 "SF12BW125" 12) 0 0 []
        = .error .recvTimeout
    ∧ ((0 : Nat) + waitFor < (junkMsg 11).arrival)
    ∧ stepLoop 2 Role.Control (create_packet 916800000 "SF12BW125" 12) 0 0
        [junkMsg 11]
        = .error .recvTimeout
    ∧ ((fun _ : Nat => true) 0 = true)
    ∧ runTestResult Role.Control "SF12BW125" 12 2 (fun _ => true) 0
        [916800000] 0 []
        = .error .recvTimeout := by
  have h0 : (0 : Nat) - 0 < waitFor := by norm_num [waitFor]
  have h1 : (0 : Nat) + waitFor < (junkMsg 11).arrival := by
    norm_num [waitFor, junkMsg]
  have he : stepLoop 2 Role.Control (create_packet 916800000 "SF12BW125" 12)
      0 0 [] = .error .recvTimeout :=
    recv_timeout_is_fatal.1 2 Role.Control
      (create_packet 916800000 "SF12BW125" 12) 0 0 h0
  exact ⟨h0, he, h1,
    recv_timeout_is_fatal.2.1 2 Role.Control
      (create_packet 916800000 "SF12BW125" 12) 0 0 (junkMsg 11) [] h0 h1,
    rfl,
    recv_timeout_is_fatal.2.2 Role.Control "SF12BW125" 12 2 (fun _ => true)
      0 916800000 [] 0 [] RunError.recvTimeout rfl he⟩

/-- C5: a failed downlink dispatch kills the whole run at once.  First: if the
dispatch of a channel is not acknowledged, the channel iteration panics
immediately — its result is the dispatch error, and that channel's index is
the last (and only remaining) dispatch attempt, so the failure is not retried
and no later channel of that direction is tried.  Second: any error from the
first sweep direction becomes the run's result, the second direction attempts
no dispatch at all, and the process exits non-zero. -/
theorem dispatch_failure_aborts_run :
    (∀ (receiver_role : Role) (datr : String) (power : Nat)
        (control_mac : MacAddress) (dispatchOk : Nat → Bool)
        (index channel : Nat) (rest : List Nat) (now : Nat)
        (pending : List TimedMessage),
        dispatchOk index = false →
        runTestResult receiver_role datr power control_mac dispatchOk index
            (channel :: rest) now pending = .error .dispatchPanic
        ∧ runTestTrace receiver_role datr power control_mac dispatchOk index
            (channel :: rest) now pending = [index])
    ∧ (∀ (datr : String) (power : Nat) (region : Region)
        (test_mac control_mac : MacAddress) (d1 d2 : Nat → Bool)
        (startTime : Nat) (pending : List TimedMessage) (e : RunError),
        runTestResult Role.Control datr power control_mac d1 0
            region.get_uplink_frequencies startTime pending = .error e →
        mainRunResult datr power region test_mac control_mac d1 d2
            startTime pending = .error e
        ∧ (mainRunTraces datr power region test_mac control_mac d1 d2
            startTime pending).2 = []
        ∧ exitCodeNonZero (mainRunResult datr power region test_mac control_mac
            d1 d2 startTime pending) = true) := by
  constructor
  · intro receiver_role datr power control_mac dispatchOk index channel rest
      now pending hd
    constructor
    · rw [runTestResult]; simp [hd]
    · rw [runTestTrace]; simp [hd]
  · intro datr power region test_mac control_mac d1 d2 startTime pending e h
    refine ⟨?_, ?_, ?_⟩
    · rw [mainRunResult, h]
    · rw [mainRunTraces, h]
    · rw [mainRunResult, h]; rfl

/-- Witness for `dispatch_failure_aborts_run`: an unacknowledged dispatch of
the first AU915 channel makes the channel iteration abort with the panic and
a single dispatch attempt, and that failure propagates as the whole run's
error with no second-direction dispatch and a non-zero exit. -/
theorem dispatch_failure_aborts_run_witness :
    ((fun _ : Nat => false) 0 = false)
    ∧ runTestResult Role.Control "SF12BW125" 12 2 (fun _ => false) 0
        (916800000 :: [917000000]) 0 [] = .error .dispatchPanic
    ∧ runTestTrace Role.Control "SF12BW125" 12 2 (fun _ => false) 0
        (916800000 :: [917000000]) 0 [] = [0]
    ∧ runTestResult Role.Control "SF12BW125" 12 2 (fun _ => false) 0
        Region.AU915.get_uplink_frequencies 0 [] = .error .dispatchPanic
    ∧ mainRunResult "SF12BW125" 12 Region.AU915 1 2 (fun _ => false)
        (fun _ => true) 0 [] = .error .dispatchPanic
    ∧ (mainRunTraces "SF12BW125" 12 Region.AU915 1 2 (fun _ => false)
        (fun _ => true) 0 []).2 = []
    ∧ exitCodeNonZero (mainRunResult "SF12BW125" 12 Region.AU915 1 2
        (fun _ => false) (fun _ => true) 0 []) = true := by
  have hstep := dispatch_failure_aborts_run.1 Role.Control "SF12BW125" 12 2
    (fun _ => false) 0 916800000 [917000000] 0 [] rfl
  have hau : runTestResult Role.Control "SF12BW125" 12 2 (fun _ => false) 0
      Region.AU915.get_uplink_frequencies 0 [] = .error .dispatchPanic := by
    have := dispatch_failure_aborts_run.1 Role.Control "SF12BW125" 12 2
      (fun _ => false) 0 916800000
      [917000000, 917200000, 917400000, 917500000,
       917600000, 917800000, 918000000, 918200000] 0 [] rfl
    exact this.1
  have hmain := dispatch_failure_aborts_run.2 "SF12BW125" 12 Region.AU915 1 2
    (fun _ => false) (fun _ => true) 0 [] RunError.dispatchPanic hau
  exact ⟨rfl, hstep.1, hstep.2, hau, hmain.1, hmain.2.1, hmain.2.2⟩

/-- C3, counterexample: both registration gates resolving with the same
identity (mac 7) is not detected: `main` joins the two gates and goes
straight into the sweeps (main.rs lines 105-128) with no comparison of the
two identities, and here the run completes both directions and exits zero. -/
theorem equal_identities_run_completes_cex :
    mainRunResult "SF12BW125" 12 Region.EU433 7 7 (fun _ => true) (fun _ => true)
        0 [junkMsg 10, junkMsg 20, junkMsg 30, junkMsg 40, junkMsg 50, junkMsg 60]
      = .ok [(433175000, false), (433375000, false), (433575000, false),
             (433175000, false), (433375000, false), (433575000, false)]
    ∧ exitCodeNonZero (mainRunResult "SF12BW125" 12 Region.EU433 7 7
        (fun _ => true) (fun _ => true) 0
        [junkMsg 10, junkMsg 20, junkMsg 30, junkMsg 40, junkMsg 50, junkMsg 60])
      = false := by
  have heval : mainRunResult "SF12BW125" 12 Region.EU433 7 7
      (fun _ => true) (fun _ => true) 0
      [junkMsg 10, junkMsg 20, junkMsg 30, junkMsg 40, junkMsg 50, junkMsg 60]
      = .ok [(433175000, false), (433375000, false), (433575000, false),
             (433175000, false), (433375000, false), (433575000, false)] := by
    norm_num [mainRunResult, runTestResult, stepLoop, packetMatches,
      create_packet, waitFor, junkMsg, Region.get_uplink_frequencies, abs_lt]
  exact ⟨heval, by rw [heval]; rfl⟩

/-- C3, amended: the driver performs no equal-identity check.  Whatever the
shared identity and regardless of dispatch outcomes or queue content, with a
non-empty plan the run still dispatches (or at least attempts) the first
channel of the first sweep — it never short-circuits on the identities being
equal (and, per the counterexample, can even complete both sweeps). -/
theorem equal_identities_no_detection (datr : String) (power : Nat)
    (region : Region) (mac : MacAddress) (d1 d2 : Nat → Bool)
    (startTime : Nat) (pending : List TimedMessage)
    (h : region.get_uplink_frequencies ≠ []) :
    (mainRunTraces datr power region mac mac d1 d2 startTime pending).1 ≠ [] := by
  obtain ⟨c, cs, hch⟩ := List.exists_cons_of_ne_nil h
  have htr : runTestTrace Role.Control datr power mac d1 0
      region.get_uplink_frequencies startTime pending ≠ [] := by
    rw [hch, runTestTrace]
    split
    · split <;> simp
    · simp
  rw [mainRunTraces]
  split <;> simpa using htr

/-- Witness for `equal_identities_no_detection`: with both identities equal
to 7 over the non-empty EU433 plan, the first sweep's dispatch trace is
non-empty. -/
theorem equal_identities_no_detection_witness :
    (Region.EU433.get_uplink_frequencies ≠ [])
    ∧ (mainRunTraces "SF12BW125" 12 Region.EU433 7 7 (fun _ => true)
        (fun _ => true) 0 []).1 ≠ [] := by
  have h : Region.EU433.get_uplink_frequencies ≠ [] := by
    simp [Region.get_uplink_frequencies]
  exact ⟨h, equal_identities_no_detection "SF12BW125" 12 Region.EU433 7
    (fun _ => true) (fun _ => true) 0 [] h⟩

/-- C7, counterexample: a matching observation with arrival instant 0 is
already queued when the channel step's dispatch returns at instant 5, yet the
step pulls it and records PASS — `run_test` never drains the queue at step
start, so observations from before the step are evaluated against the current
expectation, contradicting the claim that they are never matched. -/
theorem stale_observation_match_cex :
    (goodMsg 2 Role.Control 916800000 0).arrival < 5
    ∧ runTestResult Role.Control "SF12BW125" 12 2 (fun _ => true) 0
        [916800000] 5 [goodMsg 2 Role.Control 916800000 0]
      = .ok ([(916800000, true)], 5, []) := by
  refine ⟨by norm_num [goodMsg], ?_⟩
  norm_num [runTestResult, stepLoop, packetMatches, create_packet, waitFor,
    goodMsg, abs_lt]

/-- C7, amended: observations already queued when a channel step begins are
eligible: the step's first pull returns the queue head immediately, and if
that stale head matches the current expectation the step records PASS on the
spot.  (The code has no draining of the queue between steps; the spec's §5/§9
notes flag exactly this as a latent gap of the reference behavior.) -/
theorem stale_queued_observation_eligible (control_mac : MacAddress)
    (receiver_role : Role) (txpk : TxPk) (start : Nat) (tm : TimedMessage)
    (rest : List TimedMessage) (harr : tm.arrival ≤ start)
    (hm : packetMatches control_mac receiver_role txpk tm.msg) :
    stepLoop control_mac receiver_role txpk start start (tm :: rest)
      = .ok (true, start, rest) := by
  rw [stepLoop]
  have h1 : start - start < waitFor := by simp [waitFor]
  have h2 : tm.arrival ≤ start + 10 := le_trans harr (Nat.le_add_right _ _)
  simp [h1, h2, hm, Nat.max_eq_left harr, waitFor]

/-- Witness for `stale_queued_observation_eligible`: a matching observation
queued since instant 3 is consumed by the step starting at instant 5 and
yields an immediate PASS. -/
theorem stale_queued_observation_eligible_witness :
    ((goodMsg 2 Role.Control 916800000 3).arrival ≤ 5)
    ∧ packetMatches 2 Role.Control (create_packet 916800000 "SF12BW125" 12)
        (goodMsg 2 Role.Control 916800000 3).msg
    ∧ stepLoop 2 Role.Control (create_packet 916800000 "SF12BW125" 12) 5 5
        [goodMsg 2 Role.Control 916800000 3, junkMsg 50]
      = .ok (true, 5, [junkMsg 50]) := by
  have harr : (goodMsg 2 Role.Control 916800000 3).arrival ≤ 5 := by
    norm_num [goodMsg]
  have hm : packetMatches 2 Role.Control
      (create_packet 916800000 "SF12BW125" 12)
      (goodMsg 2 Role.Control 916800000 3).msg := by
    norm_num [packetMatches, goodMsg, create_packet, abs_lt]
  exact ⟨harr, hm, stale_queued_observation_eligible 2 Role.Control
    (create_packet 916800000 "SF12BW125" 12) 5
    (goodMsg 2 Role.Control 916800000 3) [junkMsg 50] harr hm⟩

theorem chanStep_invariant (s : ChanState) (op : ChanOp)
    (h : s.accepted = s.delivered ++ s.queue)
    (hlen : s.queue.length ≤ chanCapacity) :
    (chanStep s op).accepted = (chanStep s op).delivered ++ (chanStep s op).queue
    ∧ (chanStep s op).queue.length ≤ chanCapacity := by
  cases op with
  | send m =>
      by_cases hfull : s.queue.length < chanCapacity
      · constructor
        · simp [chanStep, hfull, h, List.append_assoc]
        · simp [chanStep, hfull]
          omega
      · simp [chanStep, hfull, h, hlen]
  | recv =>
      cases hq : s.queue with
      | nil =>
          simp only [chanStep, hq]
          exact ⟨by rw [h, hq], by simp⟩
      | cons m rest =>
          constructor
          · simp only [chanStep, hq]
            rw [h, hq]
            simp
          · simp only [chanStep, hq]
            have := hlen
            rw [hq] at this
            simp at this ⊢
            omega

/-- C8: the observation channel never drops a message.  For every operation
sequence, the messages whose send completed are exactly the delivered
messages followed by the still-queued ones — none is lost, order preserved —
and the queue never exceeds the 120-entry capacity.  Moreover a send never
touches the delivered list, and it either leaves the state entirely unchanged
(queue full: the producer stays blocked with its message) or appends the
message to the queue and completes. -/
theorem observation_channel_no_drop :
    (∀ ops : List ChanOp,
        (chanRun ops).accepted = (chanRun ops).delivered ++ (chanRun ops).queue
        ∧ (chanRun ops).queue.length ≤ chanCapacity)
    ∧ ∀ (s : ChanState) (m : Message),
        (chanStep s (.send m)).delivered = s.delivered
        ∧ (chanStep s (.send m) = s
            ∨ ((chanStep s (.send m)).queue = s.queue ++ [m]
                ∧ (chanStep s (.send m)).accepted = s.accepted ++ [m])) := by
  constructor
  · have main : ∀ (ops : List ChanOp) (s : ChanState),
        s.accepted = s.delivered ++ s.queue → s.queue.length ≤ chanCapacity →
        (ops.foldl chanStep s).accepted
            = (ops.foldl chanStep s).delivered ++ (ops.foldl chanStep s).queue
        ∧ (ops.foldl chanStep s).queue.length ≤ chanCapacity := by
      intro ops
      induction ops with
      | nil => intro s h hlen; exact ⟨h, hlen⟩
      | cons op rest ih =>
          intro s h hlen
          have hstep := chanStep_invariant s op h hlen
          exact ih (chanStep s op) hstep.1 hstep.2
    intro ops
    have := main ops { queue := [], delivered := [], accepted := [] } rfl
      (by simp [chanCapacity])
    simpa [chanRun] using this
  · intro s m
    by_cases hfull : s.queue.length < chanCapacity
    · constructor
      · simp [chanStep, hfull]
      · right
        constructor <;> simp [chanStep, hfull]
    · constructor
      · simp [chanStep, hfull]
      · left
        simp [chanStep, hfull]

end PacketForwarderTest
